import Mathlib

/-!
Shallow embedding of `src/document_analysis.py` (a single-file document
analysis tool).  The program reads an API key from the environment at
startup, lets the user upload or capture a document, uploads the raw bytes
to a remote files endpoint, then issues a chat request referencing the
returned file id and displays the resulting text.

External behaviour (HTTP responses, JSON parsing, the chat call, image
decoding) is modelled by oracle data carried in a `World` record; every
exception a library call may raise is modelled as an `Except.error` carrying
the exception's message string.  The embedded functions are instrumented to
also return the outbound requests they issue, so that claims about "no chat
request is issued" or "the chat request is issued exactly once" are about
the returned trace.
-/

namespace DocAnalysis

/-- Python truthiness of an optional string: `None` and `""` are falsy. -/
def strTruthy : Option String → Bool
  | none => false
  | some s => s != ""

/-- Parsed JSON body of the upload response, as far as the code inspects it:
`upload_json.get("id")` (absent key gives `none`), and the textual rendering
used in `f"... no file id returned: {upload_json}"`. -/
structure UploadJson where
  id : Option String
  repr : String

/-- The upload HTTP response (`upload_resp`): status code, body text, and the
outcome of `upload_resp.json()` (which raises on a non-JSON body, modelled as
`Except.error` with the exception message). -/
structure UploadHttpResp where
  status_code : Nat
  text : String
  jsonResult : Except String UploadJson

/-- One element of `response.choices`. -/
structure Choice where
  content : String

/-- The chat completions response. -/
structure ChatResp where
  choices : List Choice

/-- Oracle for the two outbound calls of `analyze_document`:
the outcome of `requests.post` (line 55) and, if reached, the outcome of
`client.chat.completions.create` (line 69).  `Except.error e` models the
call raising an exception whose string form is `e`. -/
structure World where
  postResult : Except String UploadHttpResp
  chatResult : Except String ChatResp

/-- A part of the user message content: `{"type": "text", "text": t}` or
`{"type": "file", "file": {"file_id": fid}}` — the file part carries the id
and nothing else, exactly as in lines 75-77 of the source. -/
inductive ContentPart where
  | text (t : String)
  | file (file_id : String)
deriving DecidableEq, Repr

/-- Message content: a plain string (system message) or a list of typed
parts (user message). -/
inductive MsgContent where
  | str (s : String)
  | parts (ps : List ContentPart)
deriving DecidableEq, Repr

/-- One chat message: role and content. -/
structure ChatMessage where
  role : String
  content : MsgContent
deriving DecidableEq, Repr

/-- The chat completions request payload built at lines 69-80. -/
structure ChatRequest where
  model : String
  messages : List ChatMessage
deriving DecidableEq, Repr

/-- The multipart upload request issued at line 55: URL, the `file` field
(filename, bytes, MIME type) and the `purpose` form field. -/
structure UploadRequest where
  url : String
  filename : String
  mime_type : Option String
  file_bytes : List Nat
  purpose : String
deriving DecidableEq, Repr

/-- Instrumented result of `analyze_document`: the returned string plus the
outbound requests issued during the call. -/
structure AnalyzeOut where
  result : String
  uploadRequest : Option UploadRequest
  chatRequests : List ChatRequest

/-- The fixed instructional prompt (lines 28-37). -/
def prompt : String :=
  "You are an assistant that analyzes documents.\n        Based on the uploaded document, identifiy all information needed explain and complete this document\n\n        Respond with:\n        1. what is the primary purpose of this document\n        2. who should fill out this document\n        3. a full list of all information someone would need in order to fill out the form in its entirety\n        "

/-- The guard `mime_type and mime_type.startswith("image/")` of line 49:
falsy MIME types (None, "") short-circuit to false. -/
def mimeIsImage (mime_type : Option String) : Bool :=
  match mime_type with
  | none => false
  | some s => (s != "") && s.startsWith "image/"

/-- The chat request built at lines 69-80 for a given file id. -/
def mkChatRequest (file_id : String) : ChatRequest :=
  { model := "gpt-5-nano"
    messages :=
      [ { role := "system"
          content := .str "You are a helpful legal analysis assistant." }
      , { role := "user"
          content := .parts [ .text prompt, .file file_id ] } ] }

/-- Embedding of `analyze_document` (lines 22-84).  The whole body sits in a
`try`/`except Exception` whose handler returns
`"Error during analysis: " ++ e`; accordingly every `Except.error` outcome of
the oracle maps to that string.  Accessing `response.choices[0]` on an empty
`choices` list raises `IndexError("list index out of range")`, which the same
handler catches. -/
def analyze_document (file_bytes : List Nat) (mime_type : Option String)
    (filename : String) (w : World) : AnalyzeOut :=
  let purpose := if mimeIsImage mime_type then "vision" else "user_data"
  let req : UploadRequest :=
    { url := "https://api.openai.com/v1/files"
      filename := filename
      mime_type := mime_type
      file_bytes := file_bytes
      purpose := purpose }
  match w.postResult with
  | .error e =>
    { result := "Error during analysis: " ++ e
      uploadRequest := some req
      chatRequests := [] }
  | .ok resp =>
    -- line 56: `if upload_resp.status_code not in (200, 201)`
    if resp.status_code = 200 ∨ resp.status_code = 201 then
      match resp.jsonResult with
      | .error e =>
        { result := "Error during analysis: " ++ e
          uploadRequest := some req
          chatRequests := [] }
      | .ok uj =>
        -- line 61-62: `file_id = upload_json.get("id"); if not file_id`
        let file_id := uj.id.getD ""
        if file_id = "" then
          { result := "Error uploading file: no file id returned: " ++ uj.repr
            uploadRequest := some req
            chatRequests := [] }
        else
          let creq := mkChatRequest file_id
          match w.chatResult with
          | .error e =>
            { result := "Error during analysis: " ++ e
              uploadRequest := some req
              chatRequests := [creq] }
          | .ok cresp =>
            match cresp.choices with
            | [] =>
              { result := "Error during analysis: list index out of range"
                uploadRequest := some req
                chatRequests := [creq] }
            | c :: _ =>
              { result := c.content
                uploadRequest := some req
                chatRequests := [creq] }
    else
      { result :=
          "Error uploading file: " ++ toString resp.status_code ++ " - " ++
            resp.text
        uploadRequest := some req
        chatRequests := [] }

/-- Opaque stand-in for a decoded PIL image. -/
structure Img where
  tag : Nat
deriving DecidableEq, Repr

/-- An uploaded file object as the code uses it: `getvalue()`, `.type`,
`.name` (absent attribute modelled as `none`, giving the default filename),
and the oracle outcome of `Image.open` on its stream. -/
structure UploadedFile where
  value : List Nat
  type : Option String
  name : Option String
  decode : Except String Img

/-- Instrumented result of `process_uploaded_file`: the returned four-tuple
plus the warnings emitted and whether an image decode was attempted. -/
structure ProcOut where
  file_bytes : List Nat
  mime_type : Option String
  preview_image : Option Img
  filename : String
  warnings : List String
  decodeAttempted : Bool

/-- Embedding of `process_uploaded_file` (lines 86-105): bytes and MIME type
are read first; for non-PDF MIME types `Image.open` is attempted, a failure
being caught and turned into a warning with the preview left `None`. -/
def process_uploaded_file (uf : UploadedFile) : ProcOut :=
  let file_bytes := uf.value
  let mime_type := uf.type
  let filename := uf.name.getD "uploaded_document"
  if mime_type ≠ some "application/pdf" then
    match uf.decode with
    | .ok img =>
      { file_bytes := file_bytes
        mime_type := mime_type
        preview_image := some img
        filename := filename
        warnings := []
        decodeAttempted := true }
    | .error _ =>
      { file_bytes := file_bytes
        mime_type := mime_type
        preview_image := none
        filename := filename
        warnings := ["Could not open the image for preview."]
        decodeAttempted := true }
  else
    { file_bytes := file_bytes
      mime_type := mime_type
      preview_image := none
      filename := filename
      warnings := []
      decodeAttempted := false }

/-- A rendering action issued through the UI framework. -/
inductive Display where
  | title (s : String)
  | write (s : String)
  | radio (label : String) (options : List String)
  | image (img : Img) (caption : String)
  | warning (s : String)
  | success (s : String)
  | error (s : String)
deriving DecidableEq, Repr

/-- Instrumented result of `main`: the ordered display trace, the argument
tuples of the calls made to `analyze_document`, and the number of outbound
HTTP calls attempted. -/
structure MainOut where
  displays : List Display
  analyzeCalls : List (List Nat × Option String × String)
  httpCalls : Nat

/-- The displays issued by lines 108-112 before any file handling. -/
def headDisplays : List Display :=
  [ .title "Document analysis tool"
  , .write "This tool analyzes documents using OpenAI's GPT-5-Nano model."
  , .write "Upload an image (JPEG/PNG) or PDF of the document, or capture one using your camera."
  , .radio "Choose input method:" ["Upload File", "Capture Image"] ]

/-- The displays of lines 123-126: `if mime_type != "application/pdf" and
preview_image:` shows the image, `else` writes the static PDF notice.  A
truthy `preview_image` is a present one. -/
def previewPart (p : ProcOut) : List Display :=
  match p.preview_image with
  | some img =>
    if p.mime_type ≠ some "application/pdf" then
      [.image img "Uploaded/Captured Image"]
    else
      [.write "PDF file uploaded."]
  | none => [.write "PDF file uploaded."]

/-- Embedding of `main` (lines 107-131).  `uploaded_file` is the value the
file uploader or camera widget returned (`none` when no file was provided).
Warnings emitted inside `process_uploaded_file` appear in the trace before
the preview branch, matching execution order. -/
def main (uploaded_file : Option UploadedFile) (w : World) : MainOut :=
  match uploaded_file with
  | none => { displays := headDisplays, analyzeCalls := [], httpCalls := 0 }
  | some uf =>
    let p := process_uploaded_file uf
    let a := analyze_document p.file_bytes p.mime_type p.filename w
    { displays :=
        headDisplays ++ p.warnings.map Display.warning ++ previewPart p ++
          [ .write "Analyzing the document, please wait..."
          , .success "Analysis Complete"
          , .write a.result ]
      analyzeCalls := [(p.file_bytes, p.mime_type, p.filename)]
      httpCalls :=
        (if a.uploadRequest.isSome then 1 else 0) + a.chatRequests.length }

/-- Result of running the whole module: the startup credential check at
lines 13-17 runs before `main`; `st.stop()` halts the script. -/
structure ProgramOut where
  displays : List Display
  httpCalls : Nat
  halted : Bool

/-- Embedding of the module-level flow: `OPENAI_API_KEY = os.getenv(...)`
(absent variable gives `none`), then `if not OPENAI_API_KEY: st.error(...);
st.stop()`, and only otherwise `main()`. -/
def runProgram (env_key : Option String) (uploaded_file : Option UploadedFile)
    (w : World) : ProgramOut :=
  if strTruthy env_key then
    let m := main uploaded_file w
    { displays := m.displays, httpCalls := m.httpCalls, halted := false }
  else
    { displays :=
        [.error "OpenAI API key not found in environment variable 'OPENAI_API_KEY'."]
      httpCalls := 0
      halted := true }

/-- `sub` occurs verbatim inside `s`. -/
def strContains (s sub : String) : Prop :=
  ∃ pre post, s.data = pre ++ (sub.data ++ post)

/-- `s` begins with `p`. -/
def strStarts (s p : String) : Prop :=
  ∃ rest, s.data = p.data ++ rest

/-- `mime_type.startswith("image/")` alone, with a `None` MIME type counting
as not starting with `image/`. -/
def mimeStartsWithImage (mime_type : Option String) : Bool :=
  match mime_type with
  | none => false
  | some s => s.startsWith "image/"

/- Concrete sample data used by the witness theorems. -/

def respStatus400 : UploadHttpResp :=
  { status_code := 400, text := "bad file", jsonResult := .error "Expecting value" }

def wStatus400 : World :=
  { postResult := .ok respStatus400, chatResult := .error "unreached" }

def respBadJson : UploadHttpResp :=
  { status_code := 200, text := "not json", jsonResult := .error "Expecting value" }

def wBadJson : World :=
  { postResult := .ok respBadJson, chatResult := .error "unreached" }

def wPostRaises : World :=
  { postResult := .error "boom", chatResult := .error "unreached" }

def ujOk : UploadJson := { id := some "file-123", repr := "id file-123" }

def respOk : UploadHttpResp :=
  { status_code := 200, text := "ok", jsonResult := .ok ujOk }

def wChatOk : World :=
  { postResult := .ok respOk
    chatResult := .ok { choices := [{ content := "The form is a tax form." }] } }

def ufPngBad : UploadedFile :=
  { value := [1, 2, 3], type := some "image/png", name := some "doc.png"
    decode := .error "cannot identify image file" }

def ufPdf : UploadedFile :=
  { value := [4, 5], type := some "application/pdf", name := some "doc.pdf"
    decode := .ok { tag := 9 } }

/- Helper lemmas shared by the claim theorems. -/

/-- A string trivially begins with its own leading part. -/
theorem strStarts_of_append (p e : String) : strStarts (p ++ e) p :=
  ⟨e.data, String.data_append p e⟩

/-- The two error strings of the code are distinguishable: a string built by
the `except` handler never begins with the upload-error text (the two differ
at character index 6). -/
theorem analysis_err_not_upload_err (e : String) :
    ¬ strStarts ("Error during analysis: " ++ e) "Error uploading file: " := by
  rintro ⟨rest, h⟩
  rw [String.data_append] at h
  have h6 : ("Error during analysis: ".data ++ e.data).get? 6 =
      ("Error uploading file: ".data ++ rest).get? 6 := by rw [h]
  have hl : ("Error during analysis: ".data ++ e.data).get? 6 = some 'd' := rfl
  have hr : ("Error uploading file: ".data ++ rest).get? 6 = some 'u' := rfl
  rw [hl, hr] at h6
  exact absurd h6 (by decide)

/-- The truthiness guard of line 49 is redundant: a string starting with
`"image/"` is nonempty, so the guarded test agrees with the bare test. -/
theorem mimeIsImage_eq (mt : Option String) :
    mimeIsImage mt = mimeStartsWithImage mt := by
  cases mt with
  | none => rfl
  | some s =>
    cases hsw : s.startsWith "image/" with
    | false => simp [mimeIsImage, mimeStartsWithImage, hsw]
    | true =>
      have hne : s ≠ "" := by
        intro he
        subst he
        exact absurd hsw (by decide)
      simp [mimeIsImage, mimeStartsWithImage, hsw, hne]

/-- Every branch of `analyze_document` records the same upload request: the
files URL, the given filename, MIME type and bytes, and the purpose tag
chosen at lines 49-52. -/
theorem analyze_uploadRequest_eq (b : List Nat) (mt : Option String)
    (fn : String) (w : World) :
    (analyze_document b mt fn w).uploadRequest =
      some { url := "https://api.openai.com/v1/files"
             filename := fn
             mime_type := mt
             file_bytes := b
             purpose := if mimeIsImage mt then "vision" else "user_data" } := by
  obtain ⟨post, chat⟩ := w
  cases post with
  | error e => rfl
  | ok resp =>
    by_cases hs : resp.status_code = 200 ∨ resp.status_code = 201
    · simp only [analyze_document]
      rw [if_pos hs]
      cases hj : resp.jsonResult with
      | error e => rfl
      | ok uj =>
        dsimp only
        by_cases hid : uj.id.getD "" = ""
        · rw [if_pos hid]
        · rw [if_neg hid]
          cases chat with
          | error e => rfl
          | ok cr =>
            obtain ⟨chs⟩ := cr
            cases chs <;> rfl
    · simp only [analyze_document]
      rw [if_neg hs]

/-- `process_uploaded_file` returns the original bytes, the declared MIME
type and the (defaulted) filename unchanged, in every branch. -/
theorem process_fields_eq (uf : UploadedFile) :
    (process_uploaded_file uf).file_bytes = uf.value ∧
    (process_uploaded_file uf).mime_type = uf.type ∧
    (process_uploaded_file uf).filename = uf.name.getD "uploaded_document" := by
  obtain ⟨v, ty, nm, dec⟩ := uf
  dsimp only
  simp only [process_uploaded_file]
  by_cases hty : ty ≠ some "application/pdf"
  · rw [if_pos hty]
    cases dec <;> exact ⟨rfl, rfl, rfl⟩
  · rw [if_neg hty]
    exact ⟨rfl, rfl, rfl⟩

/-- A present preview image implies the MIME type was not the PDF one, since
the preview is only assigned inside the non-PDF branch. -/
theorem process_preview_some_nonpdf (uf : UploadedFile) (img : Img)
    (h : (process_uploaded_file uf).preview_image = some img) :
    (process_uploaded_file uf).mime_type ≠ some "application/pdf" := by
  obtain ⟨v, ty, nm, dec⟩ := uf
  by_cases hty : ty ≠ some "application/pdf"
  · simp only [process_uploaded_file]
    rw [if_pos hty]
    cases dec <;> exact hty
  · exfalso
    simp only [process_uploaded_file] at h
    rw [if_neg hty] at h
    exact Option.noConfusion h

/-- Claim C1: for every upload response whose HTTP status is outside
{200, 201}, or whose (parsed) body lacks a usable `id` field, no chat
request is issued and the returned string contains the upload status code
(with the body text) or the response body rendering verbatim. -/
theorem analyze_upload_failure_skips_chat
    (b : List Nat) (mt : Option String) (fn : String) (w : World)
    (resp : UploadHttpResp) (hpost : w.postResult = .ok resp) :
    (¬ (resp.status_code = 200 ∨ resp.status_code = 201) →
      (analyze_document b mt fn w).chatRequests = [] ∧
      (analyze_document b mt fn w).result =
        "Error uploading file: " ++ toString resp.status_code ++ " - " ++
          resp.text ∧
      strContains (analyze_document b mt fn w).result
        (toString resp.status_code) ∧
      strContains (analyze_document b mt fn w).result resp.text) ∧
    (∀ uj, (resp.status_code = 200 ∨ resp.status_code = 201) →
      resp.jsonResult = .ok uj → uj.id.getD "" = "" →
      (analyze_document b mt fn w).chatRequests = [] ∧
      (analyze_document b mt fn w).result =
        "Error uploading file: no file id returned: " ++ uj.repr ∧
      strContains (analyze_document b mt fn w).result uj.repr) := by
  constructor
  · intro hs
    have hres : (analyze_document b mt fn w).result =
        "Error uploading file: " ++ toString resp.status_code ++ " - " ++
          resp.text := by
      simp only [analyze_document, hpost]
      rw [if_neg hs]
    have hchat : (analyze_document b mt fn w).chatRequests = [] := by
      simp only [analyze_document, hpost]
      rw [if_neg hs]
    refine ⟨hchat, hres, ?_, ?_⟩
    · rw [hres]
      exact ⟨"Error uploading file: ".data, (" - " ++ resp.text).data, by
        simp [String.data_append]⟩
    · rw [hres]
      refine ⟨("Error uploading file: " ++ toString resp.status_code ++ " - ").data,
        [], ?_⟩
      simp [String.data_append]
  · intro uj hs hj hid
    have hres : (analyze_document b mt fn w).result =
        "Error uploading file: no file id returned: " ++ uj.repr := by
      simp only [analyze_document, hpost]
      rw [if_pos hs]
      simp only [hj]
      rw [if_pos hid]
    have hchat : (analyze_document b mt fn w).chatRequests = [] := by
      simp only [analyze_document, hpost]
      rw [if_pos hs]
      simp only [hj]
      rw [if_pos hid]
    refine ⟨hchat, hres, ?_⟩
    rw [hres]
    refine ⟨"Error uploading file: no file id returned: ".data, [], ?_⟩
    simp [String.data_append]

/-- Witness for C1: a status-400 upload response gives the upload-error
string with the code and body embedded, and no chat request. -/
theorem analyze_upload_failure_skips_chat_witness :
    (analyze_document [0] (some "application/pdf") "doc.pdf" wStatus400).chatRequests
      = [] ∧
    (analyze_document [0] (some "application/pdf") "doc.pdf" wStatus400).result =
      "Error uploading file: 400 - bad file" ∧
    strContains
      (analyze_document [0] (some "application/pdf") "doc.pdf" wStatus400).result
      "400" := by
  have h := (analyze_upload_failure_skips_chat [0] (some "application/pdf")
      "doc.pdf" wStatus400 respStatus400 rfl).1 (by decide)
  exact ⟨h.1, h.2.1.trans (by decide), h.2.2.1⟩

/-- Claim C2: `analyze_document` never raises: every exception arising from
the upload call, the body parsing, the chat call, or the indexing of the
response choices is converted into the string
`"Error during analysis: " ++ e`. -/
theorem analyze_document_catches_exceptions
    (b : List Nat) (mt : Option String) (fn : String) (w : World) :
    (∀ e, w.postResult = .error e →
      (analyze_document b mt fn w).result = "Error during analysis: " ++ e) ∧
    (∀ resp e, w.postResult = .ok resp →
      (resp.status_code = 200 ∨ resp.status_code = 201) →
      resp.jsonResult = .error e →
      (analyze_document b mt fn w).result = "Error during analysis: " ++ e) ∧
    (∀ resp uj e, w.postResult = .ok resp →
      (resp.status_code = 200 ∨ resp.status_code = 201) →
      resp.jsonResult = .ok uj → uj.id.getD "" ≠ "" →
      w.chatResult = .error e →
      (analyze_document b mt fn w).result = "Error during analysis: " ++ e) ∧
    (∀ resp uj cresp, w.postResult = .ok resp →
      (resp.status_code = 200 ∨ resp.status_code = 201) →
      resp.jsonResult = .ok uj → uj.id.getD "" ≠ "" →
      w.chatResult = .ok cresp → cresp.choices = [] →
      (analyze_document b mt fn w).result =
        "Error during analysis: list index out of range") := by
  refine ⟨?_, ?_, ?_, ?_⟩
  · intro e he
    simp only [analyze_document, he]
  · intro resp e hp hs hj
    simp only [analyze_document, hp]
    rw [if_pos hs]
    simp only [hj]
  · intro resp uj e hp hs hj hid hc
    simp only [analyze_document, hp]
    rw [if_pos hs]
    simp only [hj]
    rw [if_neg hid, hc]
  · intro resp uj cresp hp hs hj hid hc hch
    simp only [analyze_document, hp]
    rw [if_pos hs]
    simp only [hj]
    rw [if_neg hid, hc]
    dsimp only
    simp only [hch]

/-- Witness for C2: a raising upload call yields the handler's string. -/
theorem analyze_document_catches_exceptions_witness :
    (analyze_document [] none "f" wPostRaises).result =
      "Error during analysis: boom" :=
  (analyze_document_catches_exceptions [] none "f" wPostRaises).1 "boom" rfl

/-- Claim C3: on a {200, 201} upload response with a well-formed id, exactly
one chat request is issued; its user message consists of the fixed prompt
and a file part carrying the returned id only, and the result is the first
response choice's message text verbatim. -/
theorem analyze_success_single_chat
    (b : List Nat) (mt : Option String) (fn : String) (w : World)
    (resp : UploadHttpResp) (uj : UploadJson) (cresp : ChatResp)
    (c : Choice) (rest : List Choice)
    (hpost : w.postResult = .ok resp)
    (hstatus : resp.status_code = 200 ∨ resp.status_code = 201)
    (hjson : resp.jsonResult = .ok uj)
    (hid : uj.id.getD "" ≠ "")
    (hchat : w.chatResult = .ok cresp)
    (hchoices : cresp.choices = c :: rest) :
    (analyze_document b mt fn w).chatRequests =
      [mkChatRequest (uj.id.getD "")] ∧
    mkChatRequest (uj.id.getD "") =
      { model := "gpt-5-nano"
        messages :=
          [ { role := "system"
              content := .str "You are a helpful legal analysis assistant." }
          , { role := "user"
              content := .parts [ .text prompt, .file (uj.id.getD "") ] } ] } ∧
    (analyze_document b mt fn w).result = c.content := by
  refine ⟨?_, rfl, ?_⟩ <;>
    (simp only [analyze_document, hpost]
     rw [if_pos hstatus]
     simp only [hjson]
     rw [if_neg hid, hchat]
     dsimp only
     simp only [hchoices])

/-- Witness for C3: a 200 upload answering id `file-123` and a one-choice
chat response give exactly that chat request and the choice's text. -/
theorem analyze_success_single_chat_witness :
    (analyze_document [7] (some "image/png") "doc.png" wChatOk).chatRequests =
      [mkChatRequest "file-123"] ∧
    (analyze_document [7] (some "image/png") "doc.png" wChatOk).result =
      "The form is a tax form." := by
  have h := analyze_success_single_chat [7] (some "image/png") "doc.png" wChatOk
      respOk ujOk { choices := [{ content := "The form is a tax form." }] }
      { content := "The form is a tax form." } [] rfl (Or.inl rfl) rfl
      (by decide) rfl rfl
  exact ⟨h.1, h.2.2⟩

/-- Claim C4: the upload request always carries a purpose tag, which is
`"vision"` exactly when the MIME type starts with `"image/"` and
`"user_data"` otherwise. -/
theorem analyze_purpose_selection
    (b : List Nat) (mt : Option String) (fn : String) (w : World) :
    ∃ req, (analyze_document b mt fn w).uploadRequest = some req ∧
      req.purpose =
        (if mimeStartsWithImage mt then "vision" else "user_data") ∧
      (req.purpose = "vision" ↔ mimeStartsWithImage mt = true) := by
  refine ⟨_, analyze_uploadRequest_eq b mt fn w, ?_, ?_⟩
  · dsimp only
    rw [mimeIsImage_eq]
  · dsimp only
    rw [mimeIsImage_eq]
    cases hm : mimeStartsWithImage mt <;> decide

/-- Claim C5: for MIME type `application/pdf` no image decode is attempted
regardless of byte content; for every non-PDF MIME type a decode is
attempted, and a decode failure is non-fatal, emits the warning, and leaves
the preview image `none`. -/
theorem process_uploaded_file_decode_policy (uf : UploadedFile) :
    (uf.type = some "application/pdf" →
      (process_uploaded_file uf).decodeAttempted = false ∧
      (process_uploaded_file uf).preview_image = none) ∧
    (uf.type ≠ some "application/pdf" →
      (process_uploaded_file uf).decodeAttempted = true ∧
      ∀ e, uf.decode = .error e →
        (process_uploaded_file uf).preview_image = none ∧
        (process_uploaded_file uf).warnings =
          ["Could not open the image for preview."]) := by
  obtain ⟨v, ty, nm, dec⟩ := uf
  dsimp only
  constructor
  · intro h
    subst h
    exact ⟨rfl, rfl⟩
  · intro h
    constructor
    · simp only [process_uploaded_file]
      rw [if_pos h]
      cases dec <;> rfl
    · intro e hdec
      subst hdec
      simp only [process_uploaded_file]
      rw [if_pos h]
      exact ⟨rfl, rfl⟩

/-- Witness for C5: a PDF input attempts no decode; a PNG input with
undecodable bytes attempts one, warns, and leaves the preview absent. -/
theorem process_uploaded_file_decode_policy_witness :
    ((process_uploaded_file ufPdf).decodeAttempted = false ∧
      (process_uploaded_file ufPdf).preview_image = none) ∧
    ((process_uploaded_file ufPngBad).decodeAttempted = true ∧
      (process_uploaded_file ufPngBad).preview_image = none ∧
      (process_uploaded_file ufPngBad).warnings =
        ["Could not open the image for preview."]) := by
  have h1 := (process_uploaded_file_decode_policy ufPdf).1 rfl
  have h2 := (process_uploaded_file_decode_policy ufPngBad).2 (by decide)
  exact ⟨⟨h1.1, h1.2⟩,
    ⟨h2.1, (h2.2 "cannot identify image file" rfl).1,
      (h2.2 "cannot identify image file" rfl).2⟩⟩

/-- Claim C6: for a non-PDF input whose bytes fail image decoding, `main`
still calls `analyze_document` exactly once, passing the original uploaded
bytes (and MIME type and filename) unchanged by the preview attempt. -/
theorem main_decode_failure_still_analyzes
    (uf : UploadedFile) (w : World) (e : String)
    (hty : uf.type ≠ some "application/pdf") (hdec : uf.decode = .error e) :
    (main (some uf) w).analyzeCalls =
      [(uf.value, uf.type, uf.name.getD "uploaded_document")] := by
  have hf := process_fields_eq uf
  have hcalls : (main (some uf) w).analyzeCalls =
      [((process_uploaded_file uf).file_bytes,
        (process_uploaded_file uf).mime_type,
        (process_uploaded_file uf).filename)] := rfl
  rw [hcalls, hf.1, hf.2.1, hf.2.2]

/-- Witness for C6: the undecodable PNG still reaches the analysis call with
its original bytes. -/
theorem main_decode_failure_still_analyzes_witness :
    (main (some ufPngBad) wChatOk).analyzeCalls =
      [([1, 2, 3], some "image/png", "doc.png")] :=
  main_decode_failure_still_analyzes ufPngBad wChatOk
    "cannot identify image file" (by decide) rfl

/-- Claim C7: with the `OPENAI_API_KEY` environment variable absent the
program halts with a visible error before issuing any network call, for
every possible input and external behaviour. -/
theorem program_halts_without_key (ufo : Option UploadedFile) (w : World) :
    (runProgram none ufo w).halted = true ∧
    (runProgram none ufo w).httpCalls = 0 ∧
    (runProgram none ufo w).displays =
      [Display.error
        "OpenAI API key not found in environment variable 'OPENAI_API_KEY'."] :=
  ⟨rfl, rfl, rfl⟩

/-- Counterexample to C8 as stated: a non-PDF input (`image/png`) whose
bytes fail to decode also gets the static PDF notice, so the notice is not
shown exactly for PDF inputs. -/
theorem main_pdf_notice_for_non_pdf :
    ufPngBad.type = some "image/png" ∧
    some "image/png" ≠ some "application/pdf" ∧
    Display.write "PDF file uploaded." ∈ (main (some ufPngBad) wChatOk).displays := by
  refine ⟨rfl, by decide, ?_⟩
  decide

/-- Claim C8 (amended): the presentation shows the image preview exactly
when one is available, shows the static PDF notice exactly when no preview
image is available (PDF inputs, and non-PDF inputs whose decode failed),
then the waiting message, and finally the result string under a success
banner regardless of its content. -/
theorem main_presentation_amended (uf : UploadedFile) (w : World) :
    ∃ mid,
      (main (some uf) w).displays =
        headDisplays ++ (process_uploaded_file uf).warnings.map Display.warning ++
          mid ++
          [ Display.write "Analyzing the document, please wait..."
          , Display.success "Analysis Complete"
          , Display.write (analyze_document
              (process_uploaded_file uf).file_bytes
              (process_uploaded_file uf).mime_type
              (process_uploaded_file uf).filename w).result ] ∧
      ((∃ img, (process_uploaded_file uf).preview_image = some img ∧
          mid = [Display.image img "Uploaded/Captured Image"]) ∨
       ((process_uploaded_file uf).preview_image = none ∧
          mid = [Display.write "PDF file uploaded."])) := by
  refine ⟨previewPart (process_uploaded_file uf), rfl, ?_⟩
  cases hprev : (process_uploaded_file uf).preview_image with
  | some img =>
    have hne := process_preview_some_nonpdf uf img hprev
    refine Or.inl ⟨img, rfl, ?_⟩
    simp only [previewPart, hprev]
    rw [if_pos hne]
  | none =>
    refine Or.inr ⟨rfl, ?_⟩
    simp only [previewPart, hprev]

/-- Claim C9: a falsy MIME type (`None` or the empty string) selects the
`"user_data"` purpose tag, the truthiness guard preventing any attribute
access on `None`. -/
theorem analyze_falsy_mime_defaults_user_data
    (b : List Nat) (fn : String) (w : World) (mt : Option String)
    (h : mt = none ∨ mt = some "") :
    ∃ req, (analyze_document b mt fn w).uploadRequest = some req ∧
      req.purpose = "user_data" := by
  refine ⟨_, analyze_uploadRequest_eq b mt fn w, ?_⟩
  rcases h with h | h <;> subst h <;> rfl

/-- Witness for C9: a `None` MIME type uploads with purpose `"user_data"`. -/
theorem analyze_falsy_mime_defaults_user_data_witness :
    ∃ req, (analyze_document [] none "f" wChatOk).uploadRequest = some req ∧
      req.purpose = "user_data" :=
  analyze_falsy_mime_defaults_user_data [] "f" wChatOk none (Or.inl rfl)

/-- Claim C10: an exception in the upload phase itself (the POST raising, or
the body not parsing as JSON) skips the chat request and produces a string
beginning with `"Error during analysis: "` and not with
`"Error uploading file: "`. -/
theorem analyze_upload_phase_exception_error_kind
    (b : List Nat) (mt : Option String) (fn : String) (w : World) :
    (∀ e, w.postResult = .error e →
      (analyze_document b mt fn w).chatRequests = [] ∧
      (analyze_document b mt fn w).result = "Error during analysis: " ++ e ∧
      strStarts (analyze_document b mt fn w).result "Error during analysis: " ∧
      ¬ strStarts (analyze_document b mt fn w).result "Error uploading file: ") ∧
    (∀ resp e, w.postResult = .ok resp →
      (resp.status_code = 200 ∨ resp.status_code = 201) →
      resp.jsonResult = .error e →
      (analyze_document b mt fn w).chatRequests = [] ∧
      (analyze_document b mt fn w).result = "Error during analysis: " ++ e ∧
      strStarts (analyze_document b mt fn w).result "Error during analysis: " ∧
      ¬ strStarts (analyze_document b mt fn w).result "Error uploading file: ") := by
  constructor
  · intro e he
    have hres : (analyze_document b mt fn w).result =
        "Error during analysis: " ++ e := by
      simp only [analyze_document, he]
    have hchat : (analyze_document b mt fn w).chatRequests = [] := by
      simp only [analyze_document, he]
    refine ⟨hchat, hres, ?_, ?_⟩
    · rw [hres]
      exact strStarts_of_append _ _
    · rw [hres]
      exact analysis_err_not_upload_err e
  · intro resp e hp hs hj
    have hres : (analyze_document b mt fn w).result =
        "Error during analysis: " ++ e := by
      simp only [analyze_document, hp]
      rw [if_pos hs]
      simp only [hj]
    have hchat : (analyze_document b mt fn w).chatRequests = [] := by
      simp only [analyze_document, hp]
      rw [if_pos hs]
      simp only [hj]
    refine ⟨hchat, hres, ?_, ?_⟩
    · rw [hres]
      exact strStarts_of_append _ _
    · rw [hres]
      exact analysis_err_not_upload_err e

/-- Witness for C10: a non-JSON 200 body skips the chat request and yields
the analysis-error string, not the upload-error one. -/
theorem analyze_upload_phase_exception_error_kind_witness :
    (analyze_document [9] (some "application/pdf") "doc.pdf" wBadJson).chatRequests
      = [] ∧
    (analyze_document [9] (some "application/pdf") "doc.pdf" wBadJson).result =
      "Error during analysis: Expecting value" ∧
    ¬ strStarts
      (analyze_document [9] (some "application/pdf") "doc.pdf" wBadJson).result
      "Error uploading file: " := by
  have h := (analyze_upload_phase_exception_error_kind [9]
      (some "application/pdf") "doc.pdf" wBadJson).2 respBadJson
      "Expecting value" rfl (by decide) rfl
  exact ⟨h.1, h.2.1, h.2.2.2⟩

end DocAnalysis
